import Mathlib

/-!
Verification development for the CEAP Componenti backend (`src/main.py`,
`src/schemas.py`): a shallow embedding of the degradable persistence
gateway — the store availability probe, document writer/reader wrappers,
attachment embedding, the three-outcome submission endpoints, the catalog
endpoint with its fallback dataset, and the `/test` diagnostic endpoint —
together with theorems about their behavior.
-/

namespace Ceap

/-- Python/JSON-like values stored inside documents. `vOid` models a store
object identifier (e.g. a BSON ObjectId) carrying its string rendering. -/
inductive Value where
  | vNull
  | vBool (b : Bool)
  | vInt (n : Int)
  | vNum (q : Rat)
  | vStr (s : String)
  | vOid (s : String)
  | vBytes (bs : List Nat)
  | vList (l : List Value)
  | vDict (d : List (String × Value))

/-- A document: a Python dict with string keys, modelled as an association
list in insertion order (keys unique in any dict the program builds). -/
abbrev Doc := List (String × Value)

/-- `d[k]` lookup: first binding of `k`, if any (models `k in d` / `d.get(k)`). -/
def dictGet (d : Doc) (k : String) : Option Value :=
  match d with
  | [] => none
  | (k0, v0) :: rest => if k0 == k then some v0 else dictGet rest k

/-- `d[k] = v`: replace the value at an existing key in place, else append. -/
def dictSet (d : Doc) (k : String) (v : Value) : Doc :=
  match d with
  | [] => [(k, v)]
  | (k0, v0) :: rest =>
      if k0 == k then (k0, v) :: rest else (k0, v0) :: dictSet rest k v

/-- `d.pop(k, None)`: remove the binding of `k`. -/
def dictPop (d : Doc) (k : String) : Doc :=
  match d with
  | [] => []
  | (k0, v0) :: rest =>
      if k0 == k then dictPop rest k else (k0, v0) :: dictPop rest k

/-- Python `str()` applied to a document value (used on `_id` identifiers). -/
def pyStr : Value → String
  | .vNull => "None"
  | .vBool b => if b then "True" else "False"
  | .vInt n => toString n
  | .vNum q => toString q
  | .vStr s => s
  | .vOid s => s
  | .vBytes _ => "<bytes>"
  | .vList _ => "<list>"
  | .vDict _ => "<dict>"

/-- Python list slice `l[:n]` for an `int` bound `n`: a nonnegative bound
takes the first `n` elements; a negative bound drops `-n` from the end
(clamped at the empty list). -/
def pySlice {α : Type} (l : List α) (n : Int) : List α :=
  if 0 ≤ n then l.take n.toNat else l.take ((l.length : Int) + n).toNat

/-- Python string slice `s[:n]` (by characters). -/
def pyStrTake (s : String) (n : Nat) : String :=
  ⟨s.data.take n⟩

/-- The handle `database.db`, when the module imports and `db` is not `None`:
its optional `name` attribute and the behavior of `list_collection_names()`
(`Except.error` models a raised exception). -/
structure DbHandle where
  name : Option String
  listCollectionNames : Except String (List String)

/-- What `database.get_documents` can hand back: a sequence of documents, or
(defensively handled by the caller) a single mapping. -/
inductive DbResult where
  | list (l : List Doc)
  | mapping (d : Doc)

/-- The behavior of the external `database` module at one request:
`dbHandle` is the result of `from database import db` (`Except.error` = the
module raised; `Except.ok none` = `db is None`); `createDocumentRaw` and
`getDocumentsRaw` are the raw `create_document` / `get_documents` calls,
with `Except.error` modelling a raised exception. -/
structure Store where
  dbHandle : Except String (Option DbHandle)
  createDocumentRaw : String → Doc → Except String (Option String)
  getDocumentsRaw : String → List (String × String) → Int → Except String DbResult

/-- `_db_available()`: `True` iff `from database import db` succeeds and
`db is not None`; any exception yields `False`. -/
def db_available (st : Store) : Bool :=
  match st.dbHandle with
  | .ok (some _) => true
  | _ => false

/-- `_create_document(collection, data)`: the raw call's result, with any
exception caught and turned into `None`. -/
def create_document (st : Store) (collection : String) (data : Doc) : Option String :=
  match st.createDocumentRaw collection data with
  | .ok r => r
  | .error _ => none

/-- `_get_documents(collection, filt, limit)`: the raw call's result, with
any exception caught and turned into `[]`. -/
def get_documents (st : Store) (collection : String) (filt : List (String × String))
    (limit : Int) : DbResult :=
  match st.getDocumentsRaw collection filt limit with
  | .ok r => r
  | .error _ => .list []

/-- A FastAPI `UploadFile` as the handlers see it: filename, declared
content type, the client-declared size header (present on the object but
never read by this code), and the actual payload bytes. -/
structure UploadFile where
  filename : Option String
  content_type : Option String
  declared_size : Option Nat
  content : List Nat

/-- An optional string as a document value (`None` ↦ null). -/
def optStrV (o : Option String) : Value :=
  match o with
  | some s => .vStr s
  | none => .vNull

/-- The dict returned by `_save_uploaded_file`. -/
structure FileMeta where
  file_id : Option String
  filename : Option String
  size : Nat

/-- The document `_save_uploaded_file` writes into the `file` collection. -/
def fileDoc (file : UploadFile) (bucket : String) : Doc :=
  [("bucket", .vStr bucket),
   ("filename", optStrV file.filename),
   ("content_type", optStrV file.content_type),
   ("size", .vInt file.content.length),
   ("blob", .vBytes file.content)]

/-- `_save_uploaded_file(file, bucket)`: reads the payload, writes a `file`
document, and returns `{file_id, filename, size}` with the size computed
from the payload just read. -/
def save_uploaded_file (st : Store) (file : UploadFile) (bucket : String) : FileMeta :=
  let file_id := create_document st "file" (fileDoc file bucket)
  { file_id := file_id, filename := file.filename, size := file.content.length }

/-- The attachment dict as embedded into a parent document. -/
def fileMetaValue (fm : FileMeta) : Value :=
  .vDict [("file_id", optStrV fm.file_id),
          ("filename", optStrV fm.filename),
          ("size", .vInt fm.size)]

/-- A `LeadItem` after validation (`quantity ≥ 1`, `target_price ≥ 0`
already enforced upstream by pydantic). -/
structure LeadItem where
  code : String
  quantity : Option Nat
  brand_preference : Option String
  target_price : Option Rat
  notes : Option String

/-- `model_dump()` of one `LeadItem`. -/
def leadItemDump (it : LeadItem) : Value :=
  .vDict [("code", .vStr it.code),
          ("quantity", (it.quantity.map (fun n => Value.vInt n)).getD .vNull),
          ("brand_preference", optStrV it.brand_preference),
          ("target_price", (it.target_price.map Value.vNum).getD .vNull),
          ("notes", optStrV it.notes)]

/-- `model_dump()` of a validated `LeadRequest` (`source` fixed to
`"webform"` by the handler). -/
def leadRequestDump (company name email : String) (phone : Option String)
    (items : List LeadItem) (message : Option String) : Doc :=
  [("company", .vStr company), ("name", .vStr name), ("email", .vStr email),
   ("phone", optStrV phone), ("items", .vList (items.map leadItemDump)),
   ("message", optStrV message), ("source", .vStr "webform")]

/-- The document `create_lead` hands to the writer: the dumped request,
with the attachment meta added when a file was uploaded (which also
triggers the `file`-collection write inside `_save_uploaded_file`). -/
def leadDocOf (st : Store) (company name email : String) (phone : Option String)
    (items : List LeadItem) (message : Option String) (file : Option UploadFile) : Doc :=
  let doc := leadRequestDump company name email phone items message
  match file.map (fun f => save_uploaded_file st f "leads") with
  | some fm => dictSet doc "attachment" (fileMetaValue fm)
  | none => doc

/-- A submission endpoint's caller-visible outcome: a JSON success body
`{ok: true, id, warning?}` or a raised `HTTPException`. -/
inductive SubmitResult where
  | success (id : Option String) (warning : Option String)
  | httpError (status : Nat) (detail : String)

/-- The warning string of the accepted-without-persistence outcome. -/
def noDbWarning : String := "DB non configurato: richiesta ricevuta ma non salvata."

/-- `POST /api/leads` after validation: embed the attachment (if any),
write the lead document, then classify by write result and availability. -/
def create_lead (st : Store) (company name email : String) (phone : Option String)
    (message : Option String) (items : List LeadItem) (file : Option UploadFile) :
    SubmitResult :=
  let _id := create_document st "lead" (leadDocOf st company name email phone items message file)
  match _id with
  | none =>
      if db_available st = false then .success none (some noDbWarning)
      else .httpError 500 "Errore nel salvataggio della richiesta"
  | some i => .success (some i) none

/-- `model_dump()` of a validated `ContactRequest`. -/
def contactRequestDump (company name email : String) (phone : Option String)
    (topic message : String) : Doc :=
  [("company", .vStr company), ("name", .vStr name), ("email", .vStr email),
   ("phone", optStrV phone), ("topic", .vStr topic), ("message", .vStr message)]

/-- The document `create_contact` hands to the writer. -/
def contactDocOf (st : Store) (company name email : String) (phone : Option String)
    (topic message : String) (file : Option UploadFile) : Doc :=
  let doc := contactRequestDump company name email phone topic message
  match file.map (fun f => save_uploaded_file st f "contacts") with
  | some fm => dictSet doc "attachment" (fileMetaValue fm)
  | none => doc

/-- `POST /api/contact` after validation. -/
def create_contact (st : Store) (company name email : String) (phone : Option String)
    (topic message : String) (file : Option UploadFile) : SubmitResult :=
  let _id := create_document st "contactmessage"
      (contactDocOf st company name email phone topic message file)
  match _id with
  | none =>
      if db_available st = false then .success none (some noDbWarning)
      else .httpError 500 "Errore nel salvataggio del messaggio"
  | some i => .success (some i) none

/-- A validated `ChatbotLead` body (all fields optional, `channel`
defaulting to `"chatbot"`). -/
structure ChatbotLead where
  company : Option String
  name : Option String
  email : Option String
  phone : Option String
  message : Option String
  items : List LeadItem
  channel : String

/-- `model_dump()` of a `ChatbotLead`. -/
def chatbotLeadDump (cb : ChatbotLead) : Doc :=
  [("company", optStrV cb.company), ("name", optStrV cb.name),
   ("email", optStrV cb.email), ("phone", optStrV cb.phone),
   ("message", optStrV cb.message),
   ("items", .vList (cb.items.map leadItemDump)),
   ("channel", .vStr cb.channel)]

/-- `POST /api/chatbot/lead`. -/
def chatbot_lead (st : Store) (payload : ChatbotLead) : SubmitResult :=
  let _id := create_document st "lead" (chatbotLeadDump payload)
  match _id with
  | none =>
      if db_available st = false then .success none (some noDbWarning)
      else .httpError 500 "Errore nel salvataggio della richiesta"
  | some i => .success (some i) none

/-- One `if param: filt[key] = param` step of the filter assembly: a key is
added only when the parameter is a truthy (non-empty) string. -/
def addIfTruthy (filt : List (String × String)) (k : String) (v : Option String) :
    List (String × String) :=
  match v with
  | some s => if s = "" then filt else filt ++ [(k, s)]
  | none => filt

/-- The equality filter `list_components` builds from its query params. -/
def buildFilter (type mount package brand : Option String) : List (String × String) :=
  addIfTruthy (addIfTruthy (addIfTruthy (addIfTruthy [] "type" type) "mount" mount)
    "package" package) "brand" brand

/-- The five fixed demo records substituted when the catalog query yields
nothing usable. -/
def demoCatalog : List Doc :=
  [[("code", .vStr "BSS138"), ("brand", .vStr "ON Semi"), ("type", .vStr "MOSFET"),
    ("mount", .vStr "SMD"), ("package", .vStr "SOT-23"), ("notes", .vStr "N-MOSFET 50V")],
   [("code", .vStr "LM358"), ("brand", .vStr "Texas Instruments"), ("type", .vStr "IC"),
    ("mount", .vStr "PTH"), ("package", .vStr "DIP-8"), ("notes", .vStr "Dual op-amp")],
   [("code", .vStr "ATmega328P"), ("brand", .vStr "Microchip"),
    ("type", .vStr "Microcontrollore"), ("mount", .vStr "SMD"),
    ("package", .vStr "TQFP-32"), ("notes", .vStr "8-bit MCU")],
   [("code", .vStr "1N4148"), ("brand", .vStr "Vishay"), ("type", .vStr "Diodo"),
    ("mount", .vStr "PTH"), ("package", .vStr "DO-35"), ("notes", .vStr "Small signal diode")],
   [("code", .vStr "FUS-1206-1A"), ("brand", .vStr "Littelfuse"), ("type", .vStr "Fusibile"),
    ("mount", .vStr "SMD"), ("package", .vStr "1206"), ("notes", .vStr "Fuse 1A")]]

/-- The in-place normalization applied to each returned document:
`if "_id" in it: it["id"] = str(it.get("_id")); it.pop("_id", None)`. -/
def normalizeDoc (it : Doc) : Doc :=
  match dictGet it "_id" with
  | some v => dictPop (dictSet it "id" (.vStr (pyStr v))) "_id"
  | none => it

/-- The `GET /api/components` response body. -/
structure CatalogResponse where
  items : List Doc

/-- `GET /api/components`: build the filter, query the store, substitute
the demo catalog when the result is empty (falsy) or a dict, otherwise
normalize identifiers; either way truncate with `[:limit]`. -/
def list_components (st : Store) (type mount package brand : Option String)
    (limit : Int) : CatalogResponse :=
  let filt := buildFilter type mount package brand
  let items := get_documents st "componentitem" filt limit
  match items with
  | .mapping _ => { items := pySlice demoCatalog limit }
  | .list l =>
      if l.isEmpty then { items := pySlice demoCatalog limit }
      else { items := pySlice (l.map normalizeDoc) limit }

/-- The `GET /test` response body (`database_url` / `database_name` start
as Python `None`, hence optional). -/
structure TestResponse where
  backend : String
  database : String
  database_url : Option String
  database_name : Option String
  connection_status : String
  collections : List String

/-- `GET /test`: probe the store handle, preview at most ten collection
names, catch every exception into a (≤50-character) message fragment, then
overwrite the url/name fields from the environment flags. -/
def test_database (st : Store) (urlSet nameSet : Bool) : TestResponse :=
  let r0 : TestResponse :=
    { backend := "✅ Running", database := "❌ Not Available", database_url := none,
      database_name := none, connection_status := "Not Connected", collections := [] }
  let r1 : TestResponse :=
    match st.dbHandle with
    | .error e => { r0 with database := "❌ Error: " ++ pyStrTake e 50 }
    | .ok none => { r0 with database := "⚠️  Available but not initialized" }
    | .ok (some db) =>
        let r :=
          { r0 with
            database := "✅ Available", database_url := some "✅ Configured",
            database_name := some (db.name.getD "✅ Connected"),
            connection_status := "Connected" }
        match db.listCollectionNames with
        | .ok collections =>
            { r with
              collections := collections.take 10,
              database := "✅ Connected & Working" }
        | .error e => { r with database := "⚠️  Connected but Error: " ++ pyStrTake e 50 }
  { r1 with
    database_url := some (if urlSet then "✅ Set" else "❌ Not Set"),
    database_name := some (if nameSet then "✅ Set" else "❌ Not Set") }

/-- Fixture: no store configured — importing `database` raises, every raw
call raises. This is the state the accepted-without-persistence branch is
designed for. -/
def stNone : Store :=
  { dbHandle := .error "No module named database",
    createDocumentRaw := fun _ _ => .error "No module named database",
    getDocumentsRaw := fun _ _ _ => .error "No module named database" }

/-- Fixture: store reachable and healthy — writes return id `"abc123"`,
reads return an empty list. -/
def stUp : Store :=
  { dbHandle := .ok (some { name := some "ceapdb", listCollectionNames := .ok ["lead"] }),
    createDocumentRaw := fun _ _ => .ok (some "abc123"),
    getDocumentsRaw := fun _ _ _ => .ok (.list []) }

/-- Fixture: store reachable but every data call raises. -/
def stWriteFail : Store :=
  { dbHandle := .ok (some { name := some "ceapdb", listCollectionNames := .error "boom" }),
    createDocumentRaw := fun _ _ => .error "boom",
    getDocumentsRaw := fun _ _ _ => .error "boom" }

/-- Fixture: an uploaded file with a three-byte payload and a deliberately
wrong client-declared size. -/
def sampleFile : UploadFile :=
  { filename := some "bom.xlsx", content_type := some "application/octet-stream",
    declared_size := some 999, content := [80, 75, 3] }

/-- Fixture: store reachable, catalog query returns one record carrying an
internal `_id`. -/
def stOneDoc : Store :=
  { dbHandle := .ok (some { name := some "ceapdb", listCollectionNames := .ok ["componentitem"] }),
    createDocumentRaw := fun _ _ => .ok (some "abc123"),
    getDocumentsRaw := fun _ _ _ =>
      .ok (.list [[("_id", .vOid "665f1c2a9d3e4b0001a1b2c3"), ("code", .vStr "BSS138")]]) }

theorem dictGet_dictSet_self (d : Doc) (k : String) (v : Value) :
    dictGet (dictSet d k v) k = some v := by
  induction d with
  | nil => simp [dictGet, dictSet]
  | cons hd tl ih =>
      obtain ⟨k0, v0⟩ := hd
      by_cases h : k0 = k
      · simp [dictGet, dictSet, h]
      · simpa [dictGet, dictSet, h] using ih

theorem dictGet_dictPop_self (d : Doc) (k : String) :
    dictGet (dictPop d k) k = none := by
  induction d with
  | nil => rfl
  | cons hd tl ih =>
      obtain ⟨k0, v0⟩ := hd
      by_cases h : k0 = k
      · simpa [dictPop, h] using ih
      · simpa [dictGet, dictPop, h] using ih

theorem dictGet_dictPop_ne (d : Doc) (k k' : String) (hkk : k ≠ k') :
    dictGet (dictPop d k') k = dictGet d k := by
  induction d with
  | nil => rfl
  | cons hd tl ih =>
      obtain ⟨k0, v0⟩ := hd
      by_cases h : k0 = k'
      · subst h
        have hk0 : ¬ k0 = k := fun hc => hkk hc.symm
        simpa [dictGet, dictPop, hk0] using ih
      · by_cases h2 : k0 = k
        · subst h2
          simp [dictGet, dictPop, h]
        · simpa [dictGet, dictPop, h, h2] using ih

theorem pySlice_of_nonneg {α : Type} (l : List α) (n : Int) (h : 0 ≤ n) :
    pySlice l n = l.take n.toNat := by
  simp [pySlice, h]

theorem mem_of_mem_pySlice {α : Type} {l : List α} {n : Int} {a : α}
    (h : a ∈ pySlice l n) : a ∈ l := by
  unfold pySlice at h
  split at h <;> exact List.mem_of_mem_take h

theorem pySlice_length_le {α : Type} (l : List α) (n : Int) (h : 0 ≤ n) :
    ((pySlice l n).length : Int) ≤ n := by
  rw [pySlice_of_nonneg l n h]
  calc ((l.take n.toNat).length : Int) ≤ (n.toNat : Int) := by
        exact_mod_cast List.length_take_le n.toNat l
    _ = n := Int.toNat_of_nonneg h

theorem mem_addIfTruthy (filt : List (String × String)) (k0 : String) (o : Option String)
    (k v : String) :
    (k, v) ∈ addIfTruthy filt k0 o ↔
      ((k, v) ∈ filt ∨ (k = k0 ∧ o = some v ∧ v ≠ "")) := by
  cases o with
  | none => simp [addIfTruthy]
  | some s =>
      by_cases hs : s = ""
      · subst hs
        simp only [addIfTruthy, if_pos rfl]
        constructor
        · exact fun h => Or.inl h
        · rintro (h | ⟨hk, hv, hne⟩)
          · exact h
          · exact absurd (Option.some.inj hv).symm hne
      · simp only [addIfTruthy, if_neg hs, List.mem_append, List.mem_singleton,
          Prod.mk.injEq, Option.some.injEq]
        constructor
        · rintro (h | ⟨hk, hv⟩)
          · exact Or.inl h
          · exact Or.inr ⟨hk, hv.symm, hv ▸ hs⟩
        · rintro (h | ⟨hk, hv, hne⟩)
          · exact Or.inl h
          · exact Or.inr ⟨hk, hv.symm⟩

theorem normalizeDoc_id_absent (d : Doc) : dictGet (normalizeDoc d) "_id" = none := by
  unfold normalizeDoc
  cases hid : dictGet d "_id" with
  | none => exact hid
  | some v => exact dictGet_dictPop_self ..

theorem normalizeDoc_id_val (d : Doc) (v : Value) (hid : dictGet d "_id" = some v) :
    dictGet (normalizeDoc d) "id" = some (.vStr (pyStr v)) := by
  unfold normalizeDoc
  rw [hid, dictGet_dictPop_ne _ "id" "_id" (by decide)]
  exact dictGet_dictSet_self ..

theorem list_components_items_shape (st : Store) (type mount package brand : Option String)
    (limit : Int) :
    ∃ l0 : List Doc, (list_components st type mount package brand limit).items = pySlice l0 limit := by
  cases hres : get_documents st "componentitem" (buildFilter type mount package brand) limit with
  | mapping d => exact ⟨demoCatalog, by simp [list_components, hres]⟩
  | list l =>
      cases l with
      | nil => exact ⟨demoCatalog, by simp [list_components, hres]⟩
      | cons hd tl => exact ⟨(hd :: tl).map normalizeDoc, by simp [list_components, hres]⟩

theorem pyStrTake_length_le (s : String) (n : Nat) : (pyStrTake s n).length ≤ n :=
  List.length_take_le n s.data

/-- C9: the store availability probe is total and never throws: it returns
a boolean for every store state, and any failure to obtain a usable handle
— the import raising, or `db` being `None` — yields `false`; it is `true`
exactly on a usable handle. -/
theorem db_available_total_and_safe (st : Store) :
    (db_available st = true ∨ db_available st = false) ∧
    (∀ e, st.dbHandle = .error e → db_available st = false) ∧
    (st.dbHandle = .ok none → db_available st = false) ∧
    (∀ h, st.dbHandle = .ok (some h) → db_available st = true) := by
  refine ⟨Bool.eq_false_or_eq_true _, fun e he => ?_, fun he => ?_, fun h hh => ?_⟩
  · simp [db_available, he]
  · simp [db_available, he]
  · simp [db_available, hh]

theorem db_available_total_and_safe_witness :
    db_available stNone = false ∧ db_available stUp = true :=
  ⟨(db_available_total_and_safe stNone).2.1 "No module named database" rfl,
   (db_available_total_and_safe stUp).2.2.2 _ rfl⟩

/-- C1: every submission endpoint (`POST /api/leads`, `POST /api/contact`,
`POST /api/chatbot/lead`) classifies the write outcome the same way: an
identifier from the writer gives success with that identifier and no
warning; no identifier with the store unavailable gives success with a
null identifier and the warning string; no identifier with the store
available raises HTTP 500 (never a success). -/
theorem submission_three_outcome_policy (st : Store)
    (company name email : String) (phone message : Option String)
    (items : List LeadItem) (file : Option UploadFile)
    (company2 name2 email2 : String) (phone2 : Option String)
    (topic2 message2 : String) (file2 : Option UploadFile)
    (cb : ChatbotLead) :
    ((∀ i, create_document st "lead"
        (leadDocOf st company name email phone items message file) = some i →
      create_lead st company name email phone message items file = .success (some i) none) ∧
     (create_document st "lead"
        (leadDocOf st company name email phone items message file) = none →
      db_available st = false →
      create_lead st company name email phone message items file =
        .success none (some noDbWarning)) ∧
     (create_document st "lead"
        (leadDocOf st company name email phone items message file) = none →
      db_available st = true →
      create_lead st company name email phone message items file =
        .httpError 500 "Errore nel salvataggio della richiesta")) ∧
    ((∀ i, create_document st "contactmessage"
        (contactDocOf st company2 name2 email2 phone2 topic2 message2 file2) = some i →
      create_contact st company2 name2 email2 phone2 topic2 message2 file2 =
        .success (some i) none) ∧
     (create_document st "contactmessage"
        (contactDocOf st company2 name2 email2 phone2 topic2 message2 file2) = none →
      db_available st = false →
      create_contact st company2 name2 email2 phone2 topic2 message2 file2 =
        .success none (some noDbWarning)) ∧
     (create_document st "contactmessage"
        (contactDocOf st company2 name2 email2 phone2 topic2 message2 file2) = none →
      db_available st = true →
      create_contact st company2 name2 email2 phone2 topic2 message2 file2 =
        .httpError 500 "Errore nel salvataggio del messaggio")) ∧
    ((∀ i, create_document st "lead" (chatbotLeadDump cb) = some i →
      chatbot_lead st cb = .success (some i) none) ∧
     (create_document st "lead" (chatbotLeadDump cb) = none → db_available st = false →
      chatbot_lead st cb = .success none (some noDbWarning)) ∧
     (create_document st "lead" (chatbotLeadDump cb) = none → db_available st = true →
      chatbot_lead st cb = .httpError 500 "Errore nel salvataggio della richiesta")) := by
  refine ⟨⟨fun i hi => ?_, fun hn hav => ?_, fun hn hav => ?_⟩,
    ⟨fun i hi => ?_, fun hn hav => ?_, fun hn hav => ?_⟩,
    ⟨fun i hi => ?_, fun hn hav => ?_, fun hn hav => ?_⟩⟩
  · simp [create_lead, hi]
  · simp [create_lead, hn, hav]
  · simp [create_lead, hn, hav]
  · simp [create_contact, hi]
  · simp [create_contact, hn, hav]
  · simp [create_contact, hn, hav]
  · simp [chatbot_lead, hi]
  · simp [chatbot_lead, hn, hav]
  · simp [chatbot_lead, hn, hav]

theorem submission_three_outcome_policy_witness :
    create_lead stUp "ACME" "Ada" "ada@acme.test" none none [] none =
      .success (some "abc123") none ∧
    create_contact stNone "ACME" "Ada" "ada@acme.test" none "Generale" "hi" none =
      .success none (some noDbWarning) ∧
    chatbot_lead stWriteFail
      { company := none, name := none, email := none, phone := none, message := none,
        items := [], channel := "chatbot" } =
      .httpError 500 "Errore nel salvataggio della richiesta" :=
  ⟨(submission_three_outcome_policy stUp "ACME" "Ada" "ada@acme.test" none none [] none
      "ACME" "Ada" "ada@acme.test" none "Generale" "hi" none
      { company := none, name := none, email := none, phone := none, message := none,
        items := [], channel := "chatbot" }).1.1 "abc123" rfl,
   (submission_three_outcome_policy stNone "ACME" "Ada" "ada@acme.test" none none [] none
      "ACME" "Ada" "ada@acme.test" none "Generale" "hi" none
      { company := none, name := none, email := none, phone := none, message := none,
        items := [], channel := "chatbot" }).2.1.2.1 rfl rfl,
   (submission_three_outcome_policy stWriteFail "ACME" "Ada" "ada@acme.test" none none [] none
      "ACME" "Ada" "ada@acme.test" none "Generale" "hi" none
      { company := none, name := none, email := none, phone := none, message := none,
        items := [], channel := "chatbot" }).2.2.2.2 rfl rfl⟩

/-- C7: the size recorded for an uploaded attachment — both in the
returned summary and in the embedded `file` document — is the byte length
of the payload actually read, whatever the client-declared size or content
metadata say. -/
theorem attachment_size_from_payload (st : Store) (file : UploadFile) (bucket : String) :
    (save_uploaded_file st file bucket).size = file.content.length ∧
    dictGet (fileDoc file bucket) "size" = some (.vInt (file.content.length : Int)) ∧
    (∀ ds : Option Nat, ∀ ct fn : Option String,
      (save_uploaded_file st
        { file with declared_size := ds, content_type := ct, filename := fn } bucket).size =
        file.content.length) :=
  ⟨rfl, rfl, fun _ _ _ => rfl⟩

/-- C2 counterexample: with a working store the attachment step stores the
file as a standalone `file` document and the summary's identifier is that
write's identifier, not null; with no store it is null. -/
theorem attachment_id_not_always_null :
    (save_uploaded_file stUp sampleFile "leads").file_id = some "abc123" ∧
    (save_uploaded_file stNone sampleFile "leads").file_id = none :=
  ⟨rfl, rfl⟩

/-- C2 amended: the attachment step writes the attachment as a standalone
document into the `file` collection; the summary's identifier equals that
write's result — null exactly when the write returns no identifier (for
example when the store is unavailable and the call raises). -/
theorem attachment_id_equals_write_result (st : Store) (file : UploadFile) (bucket : String) :
    (save_uploaded_file st file bucket).file_id =
      create_document st "file" (fileDoc file bucket) ∧
    (∀ e, st.createDocumentRaw "file" (fileDoc file bucket) = .error e →
      (save_uploaded_file st file bucket).file_id = none) := by
  refine ⟨rfl, fun e he => ?_⟩
  simp [save_uploaded_file, create_document, he]

theorem attachment_id_equals_write_result_witness :
    (save_uploaded_file stNone sampleFile "leads").file_id = none :=
  (attachment_id_equals_write_result stNone sampleFile "leads").2
    "No module named database" rfl

/-- C5: the equality filter sent to the document reader has an entry
`(k, v)` exactly when `k` is one of `type`, `mount`, `package`, `brand`
and the caller supplied that parameter as the non-empty string `v`; an
omitted or empty parameter contributes no key. -/
theorem components_filter_exactly_nonempty (type mount package brand : Option String)
    (k v : String) :
    (k, v) ∈ buildFilter type mount package brand ↔
      ((k = "type" ∧ type = some v ∧ v ≠ "") ∨
       (k = "mount" ∧ mount = some v ∧ v ≠ "") ∨
       (k = "package" ∧ package = some v ∧ v ≠ "") ∨
       (k = "brand" ∧ brand = some v ∧ v ≠ "")) := by
  unfold buildFilter
  rw [mem_addIfTruthy, mem_addIfTruthy, mem_addIfTruthy, mem_addIfTruthy]
  simp [or_assoc]

/-- C3: when the store's catalog answer is an empty list or a single
mapping, the response is the five fixed fallback records (codes BSS138,
LM358, ATmega328P, 1N4148, FUS-1206-1A) truncated to the given limit. -/
theorem components_fallback_on_empty_or_mapping (st : Store)
    (type mount package brand : Option String) (limit : Int)
    (h : st.getDocumentsRaw "componentitem" (buildFilter type mount package brand) limit =
        .ok (.list []) ∨
      ∃ d, st.getDocumentsRaw "componentitem" (buildFilter type mount package brand) limit =
        .ok (.mapping d))
    (hlim : 0 ≤ limit) :
    (list_components st type mount package brand limit).items = demoCatalog.take limit.toNat ∧
    demoCatalog.map (fun d => dictGet d "code") =
      [some (.vStr "BSS138"), some (.vStr "LM358"), some (.vStr "ATmega328P"),
       some (.vStr "1N4148"), some (.vStr "FUS-1206-1A")] := by
  refine ⟨?_, rfl⟩
  rcases h with h | ⟨d, h⟩ <;>
    simp [list_components, get_documents, h, pySlice_of_nonneg _ _ hlim]

theorem components_fallback_on_empty_or_mapping_witness :
    (list_components stUp none none none none 2).items = demoCatalog.take 2 :=
  (components_fallback_on_empty_or_mapping stUp none none none none 2
    (Or.inl rfl) (by decide)).1

/-- C4: on the real-store path every returned document that carries an
internal `_id` is rewritten so that the public `id` field is the string
form of that identifier, and `_id` is absent from every document of the
response. -/
theorem components_id_normalized (st : Store)
    (type mount package brand : Option String) (limit : Int) (l : List Doc)
    (hq : st.getDocumentsRaw "componentitem" (buildFilter type mount package brand) limit =
      .ok (.list l))
    (hne : l ≠ []) :
    (list_components st type mount package brand limit).items =
      pySlice (l.map normalizeDoc) limit ∧
    (∀ d v, d ∈ l → dictGet d "_id" = some v →
      dictGet (normalizeDoc d) "id" = some (.vStr (pyStr v)) ∧
      dictGet (normalizeDoc d) "_id" = none) ∧
    (∀ d, d ∈ (list_components st type mount package brand limit).items →
      dictGet d "_id" = none) := by
  have hE : l.isEmpty = false := by
    cases l with
    | nil => exact absurd rfl hne
    | cons hd tl => rfl
  have hitems : (list_components st type mount package brand limit).items =
      pySlice (l.map normalizeDoc) limit := by
    simp [list_components, get_documents, hq, hE]
  refine ⟨hitems, fun d v hd hv => ⟨normalizeDoc_id_val d v hv, normalizeDoc_id_absent d⟩,
    fun d hd => ?_⟩
  rw [hitems] at hd
  obtain ⟨d0, hd0, rfl⟩ := List.mem_map.mp (mem_of_mem_pySlice hd)
  exact normalizeDoc_id_absent d0

theorem components_id_normalized_witness :
    (list_components stOneDoc none none none none 50).items =
      [[("code", Value.vStr "BSS138"), ("id", Value.vStr "665f1c2a9d3e4b0001a1b2c3")]] ∧
    (∀ d, d ∈ (list_components stOneDoc none none none none 50).items →
      dictGet d "_id" = none) := by
  have h := components_id_normalized stOneDoc none none none none 50
    [[("_id", .vOid "665f1c2a9d3e4b0001a1b2c3"), ("code", .vStr "BSS138")]]
    rfl (fun hc => List.noConfusion hc)
  exact ⟨h.1.trans rfl, h.2.2⟩

/-- C6 counterexample: the claim quantifies over any integer limit, but a
negative limit follows Python slice semantics — at `limit = -1` the
fallback path answers four items, and `4 ≤ -1` is false. -/
theorem components_limit_negative_counterexample :
    (list_components stUp none none none none (-1)).items.length = 4 ∧
    ¬ (((list_components stUp none none none none (-1)).items.length : Int) ≤ -1) := by
  refine ⟨rfl, fun hc => ?_⟩
  have h4 : (list_components stUp none none none none (-1)).items.length = 4 := rfl
  rw [h4] at hc
  omega

/-- C6 amended: for every catalog query with a nonnegative integer limit,
the number of items in the response is at most the limit, on both the
real-store path and the fallback path (a negative limit instead follows
Python slice-from-the-end semantics, where the bound fails). -/
theorem components_limit_bounds_length (st : Store)
    (type mount package brand : Option String) (limit : Int) (hlim : 0 ≤ limit) :
    ((list_components st type mount package brand limit).items.length : Int) ≤ limit := by
  obtain ⟨l0, h0⟩ := list_components_items_shape st type mount package brand limit
  rw [h0]
  exact pySlice_length_le l0 limit hlim

theorem components_limit_bounds_length_witness :
    ((list_components stUp none none none none 2).items.length : Int) ≤ 2 :=
  components_limit_bounds_length stUp none none none none 2 (by decide)

/-- C10: an exception raised by the underlying store read is absorbed into
an empty result, so the catalog endpoint answers with the fallback catalog
instead of a server error. -/
theorem components_read_exception_falls_back (st : Store)
    (type mount package brand : Option String) (limit : Int) (e : String)
    (h : st.getDocumentsRaw "componentitem" (buildFilter type mount package brand) limit =
      .error e) :
    list_components st type mount package brand limit = { items := pySlice demoCatalog limit } := by
  simp [list_components, get_documents, h]

theorem components_read_exception_falls_back_witness :
    list_components stWriteFail none none none none 50 =
      { items := pySlice demoCatalog 50 } :=
  components_read_exception_falls_back stWriteFail none none none none 50 "boom" rfl

/-- C8: the diagnostic endpoint never fails the request: it is a total
function of the store state; every introspection exception is rendered
into the message with its text truncated to at most 50 characters, and the
collections preview holds at most 10 names. -/
theorem test_endpoint_total_truncated_capped (st : Store) (urlSet nameSet : Bool) :
    (test_database st urlSet nameSet).collections.length ≤ 10 ∧
    (∀ e, st.dbHandle = .error e →
      (test_database st urlSet nameSet).database = "❌ Error: " ++ pyStrTake e 50 ∧
      (pyStrTake e 50).length ≤ 50) ∧
    (∀ db e, st.dbHandle = .ok (some db) → db.listCollectionNames = .error e →
      (test_database st urlSet nameSet).database =
        "⚠️  Connected but Error: " ++ pyStrTake e 50 ∧
      (pyStrTake e 50).length ≤ 50) := by
  refine ⟨?_, fun e he => ⟨?_, pyStrTake_length_le e 50⟩,
    fun db e hdb hcol => ⟨?_, pyStrTake_length_le e 50⟩⟩
  · cases hdb : st.dbHandle with
    | error e => simp [test_database, hdb]
    | ok o =>
        cases o with
        | none => simp [test_database, hdb]
        | some db =>
            cases hcol : db.listCollectionNames with
            | ok cols => simp [test_database, hdb, hcol]
            | error e => simp [test_database, hdb, hcol]
  · simp [test_database, he]
  · simp [test_database, hdb, hcol]

theorem test_endpoint_total_truncated_capped_witness :
    (test_database stNone true false).database =
      "❌ Error: " ++ pyStrTake "No module named database" 50 ∧
    (test_database stWriteFail false false).database =
      "⚠️  Connected but Error: " ++ pyStrTake "boom" 50 :=
  ⟨((test_endpoint_total_truncated_capped stNone true false).2.1
      "No module named database" rfl).1,
   ((test_endpoint_total_truncated_capped stWriteFail false false).2.2
      { name := some "ceapdb", listCollectionNames := .error "boom" } "boom" rfl rfl).1⟩

end Ceap
